import Mathlib

/-!
Shallow embedding of the pathfinder core: the bounds-safe Grid accessor and the
Pathfinder validation sweep plus walk state machine, translated from the
TypeScript source (grid.ts and the current pathfinder.ts of the repository,
whose movement gates are the canMoveUp/Down/Left/Right checks with the
isPointOnIntersection exception). Cells are modelled as characters (the public
boundary builds the grid by splitting each input line into single characters);
the blank sentinel is the empty string, exactly as in the source. The walk
loop is indexed by fuel because the source loop has no built-in step bound.
-/

set_option autoImplicit false

abbrev GridT := List (List Char)

inductive Direction where
  | up
  | down
  | left
  | right
  | start
  | finish
  | error
deriving DecidableEq, Repr

structure ErrorDetails where
  row : Option Int
  col : Option Int
  errorMessage : String
deriving DecidableEq, Repr

structure ProcessResult where
  isSuccessful : Bool
  errorDetails : Option ErrorDetails
deriving DecidableEq, Repr

structure Visit where
  row : Int
  col : Int
  character : String
deriving DecidableEq, Repr

structure PathResult where
  visitedCoordinates : List Visit
  collectedLetters : String
deriving DecidableEq, Repr

structure TypedProcessResult (α : Type) where
  isSuccessful : Bool
  customData : Option α
  errorDetails : Option ErrorDetails
deriving DecidableEq, Repr

structure MovementResult where
  row : Int
  col : Int
  lastDirection : Direction
  errorMessage : Option String
deriving DecidableEq, Repr

structure NeighborPoints where
  up : String
  down : String
  left : String
  right : String
deriving DecidableEq, Repr

/-- Character constants of the Pathfinder class. -/
def HORIZONTAL_ROAD : String := "-"

def VERTICAL_ROAD : String := "|"

def CROSSROAD : String := "+"

def START_CHARACTER : String := "@"

def END_CHARACTER : String := "x"

/-- Grid.getPoint: stored character as a one-character string, or the blank
sentinel for negative or out-of-range coordinates and for a literal space. -/
def getPoint (g : GridT) (row col : Int) : String :=
  if row < 0 ∨ col < 0 then ""
  else if (g.length : Int) ≤ row ∨ ((g.getD row.toNat []).length : Int) ≤ col then ""
  else
    let ch := (g.getD row.toNat []).getD col.toNat ' '
    if ch = ' ' then "" else String.singleton ch

/-- Grid.getNeighbors: four getPoint calls around a position. -/
def getNeighbors (g : GridT) (row col : Int) : NeighborPoints :=
  { up := getPoint g (row - 1) col
    down := getPoint g (row + 1) col
    left := getPoint g row (col - 1)
    right := getPoint g row (col + 1) }

/-- Object.values(neighbors).filter(Boolean).length -/
def truthyCount (n : NeighborPoints) : Nat :=
  (if n.up ≠ "" then 1 else 0) + (if n.down ≠ "" then 1 else 0) +
    (if n.left ≠ "" then 1 else 0) + (if n.right ≠ "" then 1 else 0)

def isVerticalStraightPath (n : NeighborPoints) : Bool :=
  n.up ≠ "" && n.down ≠ "" && n.left = "" && n.right = ""

def isHorizontalStraightPath (n : NeighborPoints) : Bool :=
  n.up = "" && n.down = "" && n.left ≠ "" && n.right ≠ ""

/-- The counting chain of Pathfinder.isPointOnIntersection: start with the
truthy count, then decrement once for each fake neighbor (a horizontal road
above or below, a vertical road beside); the source computes exactly this
chain inline. -/
def discountNeighborsCount (n : NeighborPoints) : Nat :=
  let n0 := truthyCount n
  let n1 := if n.up ≠ "" && n.up = HORIZONTAL_ROAD then n0 - 1 else n0
  let n2 := if n.down ≠ "" && n.down = HORIZONTAL_ROAD then n1 - 1 else n1
  let n3 := if n.left ≠ "" && n.left = VERTICAL_ROAD then n2 - 1 else n2
  if n.right ≠ "" && n.right = VERTICAL_ROAD then n3 - 1 else n3

/-- Pathfinder.isPointOnIntersection: all four neighbors are present and
compatible after eliminating fake neighbors. -/
def isPointOnIntersection (g : GridT) (row col : Int) : Bool :=
  discountNeighborsCount (getNeighbors g row col) = 4

/-- Pathfinder.canMoveUp: the up neighbor is non-blank, and is not a
horizontal road unless that neighbor is itself on an intersection. -/
def canMoveUp (g : GridT) (row col : Int) : Bool :=
  let upNeighbor := getPoint g (row - 1) col
  if upNeighbor = "" then false
  else upNeighbor ≠ HORIZONTAL_ROAD || isPointOnIntersection g (row - 1) col

/-- Pathfinder.canMoveDown. -/
def canMoveDown (g : GridT) (row col : Int) : Bool :=
  let downNeighbor := getPoint g (row + 1) col
  if downNeighbor = "" then false
  else downNeighbor ≠ HORIZONTAL_ROAD || isPointOnIntersection g (row + 1) col

/-- Pathfinder.canMoveLeft: the left neighbor is non-blank, and is not a
vertical road unless that neighbor is itself on an intersection. -/
def canMoveLeft (g : GridT) (row col : Int) : Bool :=
  let leftNeighbor := getPoint g row (col - 1)
  if leftNeighbor = "" then false
  else leftNeighbor ≠ VERTICAL_ROAD || isPointOnIntersection g row (col - 1)

/-- Pathfinder.canMoveRight. -/
def canMoveRight (g : GridT) (row col : Int) : Bool :=
  let rightNeighbor := getPoint g row (col + 1)
  if rightNeighbor = "" then false
  else rightNeighbor ≠ VERTICAL_ROAD || isPointOnIntersection g row (col + 1)

/-- The neighbor count after eliminating the neighbors that cannot be moved
to: start with the truthy count, then decrement once for each non-blank
neighbor whose canMove check fails. Both isStartPointValid and checkTurn
compute exactly this chain inline. -/
def movableNeighborsCount (g : GridT) (row col : Int) : Nat :=
  let neighbors := getNeighbors g row col
  let n0 := truthyCount neighbors
  let n1 := if neighbors.up ≠ "" && !canMoveUp g row col then n0 - 1 else n0
  let n2 := if neighbors.down ≠ "" && !canMoveDown g row col then n1 - 1 else n1
  let n3 := if neighbors.left ≠ "" && !canMoveLeft g row col then n2 - 1 else n2
  if neighbors.right ≠ "" && !canMoveRight g row col then n3 - 1 else n3

/-- The number of real neighbors as the claims word the through-road
discount: non-blank and not a wrong-axis road (a horizontal road above or
below, a vertical road beside), with no intersection exception. This is the
specification-side notion; the program counts movable neighbors instead. -/
def realNeighborCount (g : GridT) (row col : Int) : Nat :=
  let n := getNeighbors g row col
  (if n.up ≠ "" ∧ n.up ≠ HORIZONTAL_ROAD then 1 else 0) +
    (if n.down ≠ "" ∧ n.down ≠ HORIZONTAL_ROAD then 1 else 0) +
    (if n.left ≠ "" ∧ n.left ≠ VERTICAL_ROAD then 1 else 0) +
    (if n.right ≠ "" ∧ n.right ≠ VERTICAL_ROAD then 1 else 0)

/-- Pathfinder.isStartPointValid: the start point must have exactly one
neighbor left after eliminating the neighbors it cannot move to. -/
def isStartPointValid (g : GridT) (row col : Int) : ProcessResult :=
  let neighborsCount := movableNeighborsCount g row col
  if neighborsCount ≠ 1 then
    { isSuccessful := false
      errorDetails := some
        { row := some row
          col := some col
          errorMessage := "Start point (" ++ toString row ++ ", " ++ toString col ++
            ") has " ++ toString neighborsCount ++
            " neighbors, but it must have exactly 1." } }
  else { isSuccessful := true, errorDetails := none }

/-- Pathfinder.checkTurn: a turn must have exactly 2 movable connecting
roads and must not be a straight pass; the straight-path checks read the raw
truthiness of the neighbors. -/
def checkTurn (g : GridT) (row col : Int) : ProcessResult :=
  let neighbors := getNeighbors g row col
  let neighborsCount := movableNeighborsCount g row col
  if neighborsCount ≠ 2 then
    { isSuccessful := false
      errorDetails := some
        { row := some row
          col := some col
          errorMessage := "Turn must have exactly 2 roads coming into it" } }
  else if isVerticalStraightPath neighbors || isHorizontalStraightPath neighbors then
    { isSuccessful := false
      errorDetails := some
        { row := some row
          col := some col
          errorMessage := "Turn must not be a straight path" } }
  else { isSuccessful := true, errorDetails := none }

/-- Pathfinder.getStartingMove: move toward the first movable neighbor in
the order up, down, left, right; error when no move exists. -/
def getStartingMove (g : GridT) (row col : Int) : MovementResult :=
  if canMoveUp g row col then { row := row - 1, col := col, lastDirection := .up, errorMessage := none }
  else if canMoveDown g row col then { row := row + 1, col := col, lastDirection := .down, errorMessage := none }
  else if canMoveLeft g row col then { row := row, col := col - 1, lastDirection := .left, errorMessage := none }
  else if canMoveRight g row col then { row := row, col := col + 1, lastDirection := .right, errorMessage := none }
  else { row := row, col := col, lastDirection := .error,
         errorMessage := some "No valid path found at start" }

/-- Pathfinder.handleStartCharacter delegates to getStartingMove. -/
def handleStartCharacter (g : GridT) (row col : Int) : MovementResult :=
  getStartingMove g row col

/-- Pathfinder.getNextTurnMove: from up or down, turn toward the first
movable of left then right; from left or right, toward the first movable of
up then down. -/
def getNextTurnMove (g : GridT) (row col : Int) (direction : Direction) : MovementResult :=
  match direction with
  | .up | .down =>
    if canMoveLeft g row col then { row := row, col := col - 1, lastDirection := .left, errorMessage := none }
    else if canMoveRight g row col then { row := row, col := col + 1, lastDirection := .right, errorMessage := none }
    else { row := row, col := col, lastDirection := .error, errorMessage := none }
  | .left | .right =>
    if canMoveUp g row col then { row := row - 1, col := col, lastDirection := .up, errorMessage := none }
    else if canMoveDown g row col then { row := row + 1, col := col, lastDirection := .down, errorMessage := none }
    else { row := row, col := col, lastDirection := .error, errorMessage := none }
  | _ =>
    { row := row, col := col, lastDirection := .error,
      errorMessage := some "Invalid direction for turn" }

/-- Pathfinder.handleTurn: re-validate the turn locally, then take the next
turn move; failures keep the current position. -/
def handleTurn (g : GridT) (row col : Int) (lastDirection : Direction) : MovementResult :=
  let turnValidity := checkTurn g row col
  if !turnValidity.isSuccessful then
    { row := row, col := col, lastDirection := .error,
      errorMessage := some ((turnValidity.errorDetails.map (·.errorMessage)).getD "Invalid turn") }
  else
    let nextMove := getNextTurnMove g row col lastDirection
    if nextMove.lastDirection = .error then
      { row := row, col := col, lastDirection := .error,
        errorMessage := some "No valid path found at turn" }
    else nextMove

/-- Pathfinder.getNextRoadMove: continue strictly in the same direction,
error when that direction is not movable. -/
def getNextRoadMove (g : GridT) (row col : Int) (lastDirection : Direction) : MovementResult :=
  match lastDirection with
  | .up =>
    if !canMoveUp g row col then
      { row := row, col := col, lastDirection := .error,
        errorMessage := some "Cannot continue upward: path ends unexpectedly" }
    else { row := row - 1, col := col, lastDirection := .up, errorMessage := none }
  | .down =>
    if !canMoveDown g row col then
      { row := row, col := col, lastDirection := .error,
        errorMessage := some "Cannot continue downward: path ends unexpectedly" }
    else { row := row + 1, col := col, lastDirection := .down, errorMessage := none }
  | .left =>
    if !canMoveLeft g row col then
      { row := row, col := col, lastDirection := .error,
        errorMessage := some "Cannot continue left: path ends unexpectedly" }
    else { row := row, col := col - 1, lastDirection := .left, errorMessage := none }
  | .right =>
    if !canMoveRight g row col then
      { row := row, col := col, lastDirection := .error,
        errorMessage := some "Cannot continue right: path ends unexpectedly" }
    else { row := row, col := col + 1, lastDirection := .right, errorMessage := none }
  | _ =>
    { row := row, col := col, lastDirection := .error,
      errorMessage := some "Invalid direction for road" }

/-- Pathfinder.handleRoad. -/
def handleRoad (g : GridT) (row col : Int) (lastDirection : Direction) : MovementResult :=
  getNextRoadMove g row col lastDirection

/-- Pathfinder.tryContinueDirection: continue in the current direction from
a letter tile when that direction is movable. -/
def tryContinueDirection (g : GridT) (row col : Int) (lastDirection : Direction) :
    MovementResult :=
  match lastDirection with
  | .up =>
    if canMoveUp g row col then { row := row - 1, col := col, lastDirection := .up, errorMessage := none }
    else { row := row, col := col, lastDirection := .error, errorMessage := none }
  | .down =>
    if canMoveDown g row col then { row := row + 1, col := col, lastDirection := .down, errorMessage := none }
    else { row := row, col := col, lastDirection := .error, errorMessage := none }
  | .left =>
    if canMoveLeft g row col then { row := row, col := col - 1, lastDirection := .left, errorMessage := none }
    else { row := row, col := col, lastDirection := .error, errorMessage := none }
  | .right =>
    if canMoveRight g row col then { row := row, col := col + 1, lastDirection := .right, errorMessage := none }
    else { row := row, col := col, lastDirection := .error, errorMessage := none }
  | _ => { row := row, col := col, lastDirection := .error, errorMessage := none }

/-- Pathfinder.tryTurnFromDirection: turn at a letter tile toward the first
movable candidate (from up or down: left then right; from left or right: up
then down). -/
def tryTurnFromDirection (g : GridT) (row col : Int) (lastDirection : Direction) :
    MovementResult :=
  match lastDirection with
  | .up | .down =>
    if canMoveLeft g row col then { row := row, col := col - 1, lastDirection := .left, errorMessage := none }
    else if canMoveRight g row col then { row := row, col := col + 1, lastDirection := .right, errorMessage := none }
    else { row := row, col := col, lastDirection := .error, errorMessage := none }
  | .left | .right =>
    if canMoveUp g row col then { row := row - 1, col := col, lastDirection := .up, errorMessage := none }
    else if canMoveDown g row col then { row := row + 1, col := col, lastDirection := .down, errorMessage := none }
    else { row := row, col := col, lastDirection := .error, errorMessage := none }
  | _ => { row := row, col := col, lastDirection := .error, errorMessage := none }

/-- Pathfinder.getNextLetterMove: try to continue, then try to turn. -/
def getNextLetterMove (g : GridT) (row col : Int) (lastDirection : Direction) :
    MovementResult :=
  let continuedMove := tryContinueDirection g row col lastDirection
  if continuedMove.lastDirection ≠ .error then continuedMove
  else
    let turnedMove := tryTurnFromDirection g row col lastDirection
    if turnedMove.lastDirection ≠ .error then turnedMove
    else { row := row, col := col, lastDirection := .error, errorMessage := none }

/-- Pathfinder.handleLetter. -/
def handleLetter (g : GridT) (row col : Int) (lastDirection : Direction) : MovementResult :=
  let nextMove := getNextLetterMove g row col lastDirection
  if nextMove.lastDirection = .error then
    { row := row, col := col, lastDirection := .error,
      errorMessage := some "No valid path found at letter" }
  else nextMove

/-- Pathfinder.move: dispatch on the tile kind at the current position. -/
def move (g : GridT) (row col : Int) (lastDirection : Direction) : MovementResult :=
  let currentCharacter := getPoint g row col
  if currentCharacter = START_CHARACTER then handleStartCharacter g row col
  else if currentCharacter = CROSSROAD then handleTurn g row col lastDirection
  else if currentCharacter = HORIZONTAL_ROAD ∨ currentCharacter = VERTICAL_ROAD then
    handleRoad g row col lastDirection
  else if currentCharacter = END_CHARACTER then
    { row := row, col := col, lastDirection := .finish, errorMessage := none }
  else handleLetter g row col lastDirection

/-- /[A-Z]/.test(character): some character of the string is an uppercase
letter. -/
def uppercaseHit (s : String) : Bool :=
  s.data.any fun c => 'A' ≤ c && c ≤ 'Z'

/-- Pathfinder.getCollectedLetters: the ordered letters of the trace, each
coordinate contributing at most once. -/
def getCollectedLetters (visitedCoordinates : List Visit) : String :=
  let uniqueLetters := visitedCoordinates.foldl
    (fun (letters : List Visit) current =>
      if uppercaseHit current.character &&
          !(letters.any fun x => x.row = current.row && x.col = current.col) then
        letters ++ [current]
      else letters)
    []
  String.join (uniqueLetters.map (·.character))

/-- /[A-Z@x\+\-\|\s]/ applied to one character; for the \s class this lists
the whitespace characters the JavaScript regex matches. -/
def validGridChar (c : Char) : Bool :=
  ('A' ≤ c && c ≤ 'Z') || c = '@' || c = 'x' || c = '+' || c = '-' || c = '|' ||
    c = ' ' || c = '\t' || c = '\n' || c = '\x0b' || c = '\x0c' || c = '\r' ||
    c = '\u00A0' || c = '\u1680' || ('\u2000' ≤ c && c ≤ '\u200A') ||
    c = '\u2028' || c = '\u2029' || c = '\u202F' || c = '\u205F' ||
    c = '\u3000' || c = '\uFEFF'

/-- VALID_GRID_CHARACTERS.test(character): some character of the string
matches the pattern. -/
def validGridCharTest (s : String) : Bool :=
  s.data.any validGridChar

/-- The mutable start and end point fields of the Pathfinder instance,
populated during the validation sweep. -/
structure SetupState where
  startPoint : Option (Int × Int)
  endPoint : Option (Int × Int)
deriving DecidableEq, Repr

/-- One cell of Grid.runGridProcessing, specialized to the exact-character
handlers registered by Pathfinder.setupProcesses; the regExp handler map is
empty, so that loop contributes nothing. Blank cells are skipped. -/
def processCell (g : GridT) (st : SetupState) (row col : Int) :
    ProcessResult × SetupState :=
  let character := getPoint g row col
  if character = "" then ({ isSuccessful := true, errorDetails := none }, st)
  else if !validGridCharTest character then
    ({ isSuccessful := false
       errorDetails := some
        { row := some row, col := some col
          errorMessage := "Invalid character found: " ++ character } }, st)
  else if character = START_CHARACTER then
    match st.startPoint with
    | some _ =>
      ({ isSuccessful := false
         errorDetails := some
          { row := none, col := none
            errorMessage := "There are more than one start points." } }, st)
    | none =>
      let st2 : SetupState := { st with startPoint := some (row, col) }
      (isStartPointValid g row col, st2)
  else if character = END_CHARACTER then
    ({ isSuccessful := true, errorDetails := none },
     { st with endPoint := some (row, col) })
  else ({ isSuccessful := true, errorDetails := none }, st)

/-- The left-to-right, top-to-bottom sweep of Grid.runGridProcessing over a
list of cell coordinates, aborting on the first failing cell. -/
def sweepFrom (g : GridT) (st : SetupState) : List (Int × Int) → ProcessResult × SetupState
  | [] => ({ isSuccessful := true, errorDetails := none }, st)
  | (row, col) :: rest =>
    let step := processCell g st row col
    if step.1.isSuccessful then sweepFrom g step.2 rest else step

/-- All cell coordinates of the jagged grid in sweep order. -/
def allCells (g : GridT) : List (Int × Int) :=
  (List.range g.length).flatMap fun row =>
    (List.range (g.getD row []).length).map fun col => ((row : Int), (col : Int))

/-- Grid.runGridProcessing as invoked from Pathfinder.setup. -/
def setupSweep (g : GridT) : ProcessResult × SetupState :=
  sweepFrom g { startPoint := none, endPoint := none } (allCells g)

/-- Pathfinder.setup: run the sweep, then require both start and end points. -/
def setup (g : GridT) : ProcessResult × SetupState :=
  let swept := setupSweep g
  if !swept.1.isSuccessful then swept
  else
    match swept.2.startPoint, swept.2.endPoint with
    | some _, some _ => swept
    | some _, none =>
      ({ isSuccessful := false
         errorDetails := some { row := none, col := none, errorMessage := "End point not found" } },
       swept.2)
    | none, some _ =>
      ({ isSuccessful := false
         errorDetails := some { row := none, col := none, errorMessage := "Start point not found" } },
       swept.2)
    | none, none =>
      ({ isSuccessful := false
         errorDetails := some { row := none, col := none, errorMessage := "Start and end point not found" } },
       swept.2)

/-- The loop body of Pathfinder.walkPath, indexed by fuel: the source loop
runs until lastDirection is finish, with no built-in bound, so the embedding
returns none when the given number of iterations is exhausted. -/
def walkAux (g : GridT) (fuel : Nat) (row col : Int) (lastDirection : Direction)
    (visitedCoordinates : List Visit) : Option (TypedProcessResult PathResult) :=
  if lastDirection = Direction.finish then
    some { isSuccessful := true
           customData := some
            { visitedCoordinates := visitedCoordinates
              collectedLetters := getCollectedLetters visitedCoordinates }
           errorDetails := none }
  else
    match fuel with
    | 0 => none
    | fuel2 + 1 =>
      let currentCharacter := getPoint g row col
      let visited2 := visitedCoordinates ++ [⟨row, col, currentCharacter⟩]
      let newValues := move g row col lastDirection
      if newValues.lastDirection = Direction.error then
        some { isSuccessful := false
               customData := some
                { visitedCoordinates := visited2
                  collectedLetters := getCollectedLetters visited2 }
               errorDetails := some
                { row := some newValues.row
                  col := some newValues.col
                  errorMessage := newValues.errorMessage.getD "Invalid path" } }
      else walkAux g fuel2 newValues.row newValues.col newValues.lastDirection visited2

/-- Pathfinder.findPath: setup, then walk from the recorded start point. The
source reads the start point through a non-null cast that setup has
justified; the getD default is the unreachable branch of that cast. -/
def findPath (g : GridT) (fuel : Nat) : Option (TypedProcessResult PathResult) :=
  let ready := setup g
  if !ready.1.isSuccessful then
    some { isSuccessful := false, customData := none, errorDetails := ready.1.errorDetails }
  else
    let startPoint := ready.2.startPoint.getD (0, 0)
    walkAux g fuel startPoint.1 startPoint.2 Direction.start []

/-!
### Specification-side definitions and concrete grids used by the claims
-/

/-- The letter transition as the amended claim words it: first try to
continue in the current direction when it is movable, then try to turn (from
up or down: left then right; from left or right: up then down), each
candidate gated by the same movability checks; error with the letter message
when nothing is available. -/
def letterMoveSpec (g : GridT) (row col : Int) (d : Direction) : MovementResult :=
  match d with
  | .up =>
    if canMoveUp g row col then { row := row - 1, col := col, lastDirection := .up, errorMessage := none }
    else if canMoveLeft g row col then { row := row, col := col - 1, lastDirection := .left, errorMessage := none }
    else if canMoveRight g row col then { row := row, col := col + 1, lastDirection := .right, errorMessage := none }
    else { row := row, col := col, lastDirection := .error, errorMessage := some "No valid path found at letter" }
  | .down =>
    if canMoveDown g row col then { row := row + 1, col := col, lastDirection := .down, errorMessage := none }
    else if canMoveLeft g row col then { row := row, col := col - 1, lastDirection := .left, errorMessage := none }
    else if canMoveRight g row col then { row := row, col := col + 1, lastDirection := .right, errorMessage := none }
    else { row := row, col := col, lastDirection := .error, errorMessage := some "No valid path found at letter" }
  | .left =>
    if canMoveLeft g row col then { row := row, col := col - 1, lastDirection := .left, errorMessage := none }
    else if canMoveUp g row col then { row := row - 1, col := col, lastDirection := .up, errorMessage := none }
    else if canMoveDown g row col then { row := row + 1, col := col, lastDirection := .down, errorMessage := none }
    else { row := row, col := col, lastDirection := .error, errorMessage := some "No valid path found at letter" }
  | .right =>
    if canMoveRight g row col then { row := row, col := col + 1, lastDirection := .right, errorMessage := none }
    else if canMoveUp g row col then { row := row - 1, col := col, lastDirection := .up, errorMessage := none }
    else if canMoveDown g row col then { row := row + 1, col := col, lastDirection := .down, errorMessage := none }
    else { row := row, col := col, lastDirection := .error, errorMessage := some "No valid path found at letter" }
  | _ => { row := row, col := col, lastDirection := .error, errorMessage := some "No valid path found at letter" }

/-- What a walk-phase failure must carry: the partial trace with its letters
recomputed from the trace, and error details locating the last visited tile. -/
def walkFailureInvariant (g : GridT) (res : TypedProcessResult PathResult) : Prop :=
  match res.customData, res.errorDetails with
  | some pr, some ed =>
    pr.collectedLetters = getCollectedLetters pr.visitedCoordinates ∧
      (match pr.visitedCoordinates.getLast? with
       | some v => ed.row = some v.row ∧ ed.col = some v.col ∧
           v.character = getPoint g v.row v.col
       | none => False)
  | _, _ => False

/-- The one-cell grid holding only the start character. -/
def singleAtGrid : GridT := [['@']]

/-- A one-cell grid holding a letter. -/
def singleLetterGrid : GridT := [['A']]

/-- A turn entered rightward that must go down. -/
def lTurnGrid : GridT := [['@', '-', '+'], [' ', ' ', '|'], [' ', ' ', 'x']]

/-- A turn whose left neighbor is a vertical road that is not on an
intersection, hence not a real connection, while its right neighbor is. -/
def c1Grid : GridT := [[' ', '|'], ['|', '+', '-']]

/-- A start point whose up neighbor is a horizontal road not on an
intersection (discounted) and whose single real neighbor is to the right. -/
def c3Grid : GridT := [[' ', '-'], [' ', '@', '-']]

/-- A letter below a horizontal road that lies on a four-way intersection:
the road is movable for the program although the plain through-road discount
would reject it. -/
def c4Grid : GridT :=
  [[' ', ' ', '|'],
   [' ', '-', '-', '-'],
   [' ', ' ', 'A']]

/-- A start point below a horizontal road that lies on a four-way
intersection: the program counts it as the single movable neighbor although
the plain through-road discount would reject it. -/
def c5Grid : GridT :=
  [[' ', '|', ' '],
   ['-', '-', '-'],
   [' ', '@', ' ']]

/-- A diagram whose walk enters a cycle and never reaches the end marker. -/
def loopGrid : GridT :=
  [['@', '-', 'A', '-', '+'],
   [' ', ' ', '|', ' ', '|'],
   ['x', ' ', '+', '-', '+']]

/-- A straight route to a first end marker, with a second end marker beyond
a gap; the sweep records the later one as the end point. -/
def multiXGrid : GridT := [['@', '-', 'x', ' ', 'x']]

/-- A grid with a four-way intersection that the walked path never visits. -/
def fourWayGrid : GridT :=
  [['@', '-', 'x', ' ', ' ', '|'],
   [' ', ' ', ' ', ' ', '-', '+', '-'],
   [' ', ' ', ' ', ' ', ' ', '|']]

/-- A four-way intersection with all four neighbors movable. -/
def fourWayCross : GridT := [[' ', '|'], ['-', '+', '-'], [' ', '|']]

/-- Three start characters; the first one already fails its neighbor check. -/
def c7Grid : GridT := [['@', '@'], ['@']]

/-- A route that breaks off before reaching the end marker. -/
def c8Grid : GridT := [['@', '-', ' ', 'x']]

/-- The failure value findPath returns on c8Grid. -/
def c8Res : TypedProcessResult PathResult :=
  { isSuccessful := false
    customData := some
      { visitedCoordinates := [{ row := 0, col := 0, character := "@" },
                               { row := 0, col := 1, character := "-" }]
        collectedLetters := "" }
    errorDetails := some
      { row := some 0
        col := some 1
        errorMessage := "Cannot continue right: path ends unexpectedly" } }

/-!
### Helper lemmas
-/

lemma stringSingleton_ne_empty (c : Char) : String.singleton c ≠ "" := by
  simp [String.singleton, String.ext_iff]

lemma stringSingleton_eq_iff (a b : Char) : String.singleton a = String.singleton b ↔ a = b := by
  simp [String.singleton, String.ext_iff]

lemma canMoveUp_blank (g : GridT) (row col : Int) (h : getPoint g (row - 1) col = "") :
    canMoveUp g row col = false := by
  unfold canMoveUp
  dsimp only
  rw [if_pos h]

lemma canMoveDown_blank (g : GridT) (row col : Int) (h : getPoint g (row + 1) col = "") :
    canMoveDown g row col = false := by
  unfold canMoveDown
  dsimp only
  rw [if_pos h]

lemma canMoveLeft_blank (g : GridT) (row col : Int) (h : getPoint g row (col - 1) = "") :
    canMoveLeft g row col = false := by
  unfold canMoveLeft
  dsimp only
  rw [if_pos h]

lemma canMoveRight_blank (g : GridT) (row col : Int) (h : getPoint g row (col + 1) = "") :
    canMoveRight g row col = false := by
  unfold canMoveRight
  dsimp only
  rw [if_pos h]

/-- The decrement chain of the source equals the number of directions whose
canMove check passes. -/
lemma movableNeighborsCount_eq (g : GridT) (row col : Int) :
    movableNeighborsCount g row col =
      (if canMoveUp g row col then 1 else 0) + (if canMoveDown g row col then 1 else 0) +
        (if canMoveLeft g row col then 1 else 0) + (if canMoveRight g row col then 1 else 0) := by
  have hu : (getNeighbors g row col).up = "" → canMoveUp g row col = false :=
    fun h => canMoveUp_blank g row col h
  have hd : (getNeighbors g row col).down = "" → canMoveDown g row col = false :=
    fun h => canMoveDown_blank g row col h
  have hl : (getNeighbors g row col).left = "" → canMoveLeft g row col = false :=
    fun h => canMoveLeft_blank g row col h
  have hr : (getNeighbors g row col).right = "" → canMoveRight g row col = false :=
    fun h => canMoveRight_blank g row col h
  unfold movableNeighborsCount truthyCount
  dsimp only
  by_cases b1 : (getNeighbors g row col).up = "" <;>
    by_cases b2 : (getNeighbors g row col).down = "" <;>
    by_cases b3 : (getNeighbors g row col).left = "" <;>
    by_cases b4 : (getNeighbors g row col).right = "" <;>
    by_cases c1 : canMoveUp g row col <;>
    by_cases c2 : canMoveDown g row col <;>
    by_cases c3 : canMoveLeft g row col <;>
    by_cases c4 : canMoveRight g row col <;>
    simp_all

lemma isStartPointValid_success_iff (g : GridT) (row col : Int) :
    (isStartPointValid g row col).isSuccessful = true ↔
      movableNeighborsCount g row col = 1 := by
  unfold isStartPointValid
  dsimp only
  by_cases h : movableNeighborsCount g row col = 1 <;> simp [h]

/-!
### Claim C5
-/

/-- C5 (amended): validation of the start character succeeds exactly when it
has exactly one movable neighbor, where a non-blank neighbor is discounted
exactly when its canMove check fails — a wrong-axis road (horizontal road
above or below, vertical road beside) that is not itself a four-way
intersection; on failure the returned error names the start location and the
observed count. -/
theorem startPointValid_iff_one_movable_neighbor (g : GridT) (row col : Int) :
    ((isStartPointValid g row col).isSuccessful = true ↔
      (if canMoveUp g row col then 1 else 0) + (if canMoveDown g row col then 1 else 0) +
        (if canMoveLeft g row col then 1 else 0) +
        (if canMoveRight g row col then 1 else 0) = 1) ∧
    ((if canMoveUp g row col then 1 else 0) + (if canMoveDown g row col then 1 else 0) +
        (if canMoveLeft g row col then 1 else 0) +
        (if canMoveRight g row col then 1 else 0) ≠ 1 →
      isStartPointValid g row col =
        { isSuccessful := false
          errorDetails := some
            { row := some row
              col := some col
              errorMessage := "Start point (" ++ toString row ++ ", " ++ toString col ++
                ") has " ++ toString (movableNeighborsCount g row col) ++
                " neighbors, but it must have exactly 1." } }) := by
  rw [← movableNeighborsCount_eq]
  unfold isStartPointValid
  dsimp only
  by_cases h : movableNeighborsCount g row col = 1 <;> simp [h]

/-- Witness for the amended C5 at the one-cell grid holding only the start
character. -/
theorem startPointValid_iff_one_movable_neighbor_witness :
    (if canMoveUp singleAtGrid 0 0 then 1 else 0) +
        (if canMoveDown singleAtGrid 0 0 then 1 else 0) +
        (if canMoveLeft singleAtGrid 0 0 then 1 else 0) +
        (if canMoveRight singleAtGrid 0 0 then 1 else 0) ≠ 1 ∧
      isStartPointValid singleAtGrid 0 0 =
        { isSuccessful := false
          errorDetails := some
            { row := some 0
              col := some 0
              errorMessage := "Start point (0, 0) has 0 neighbors, but it must have exactly 1." } } := by
  refine ⟨by decide, ?_⟩
  have h := (startPointValid_iff_one_movable_neighbor singleAtGrid 0 0).2 (by decide)
  exact h

/-- C5 as stated is false of the code: on c5Grid the start character has no
real neighbor under the plain through-road discount the claim words (its only
neighbor is a horizontal road directly above), yet validation succeeds,
because that road lies on a four-way intersection and the canMove check
accepts it. -/
theorem startPointValid_plain_discount_counterexample :
    getPoint c5Grid 2 1 = START_CHARACTER ∧
      (getNeighbors c5Grid 2 1).up = HORIZONTAL_ROAD ∧
      realNeighborCount c5Grid 2 1 = 0 ∧
      isPointOnIntersection c5Grid 1 1 = true ∧
      (isStartPointValid c5Grid 2 1).isSuccessful = true := by
  decide

/-!
### Claim C9
-/

/-- C9: getPoint is total and returns the blank sentinel exactly when the row
or column is negative, the row is past the last row, the column is past the
end of that row, or the stored character is a literal space; otherwise it
returns the stored character. -/
theorem getPoint_blank_iff (g : GridT) (row col : Int) :
    (getPoint g row col = "" ↔
      row < 0 ∨ col < 0 ∨ (g.length : Int) ≤ row ∨
        ((g.getD row.toNat []).length : Int) ≤ col ∨
        (g.getD row.toNat []).getD col.toNat ' ' = ' ') ∧
    (¬(row < 0 ∨ col < 0 ∨ (g.length : Int) ≤ row ∨
        ((g.getD row.toNat []).length : Int) ≤ col ∨
        (g.getD row.toNat []).getD col.toNat ' ' = ' ') →
      getPoint g row col = String.singleton ((g.getD row.toNat []).getD col.toNat ' ')) := by
  unfold getPoint
  dsimp only
  split_ifs with h1 h2 h3
  · have hdisj : row < 0 ∨ col < 0 ∨ (g.length : Int) ≤ row ∨
        ((g.getD row.toNat []).length : Int) ≤ col ∨
        (g.getD row.toNat []).getD col.toNat ' ' = ' ' := by tauto
    exact ⟨⟨fun _ => hdisj, fun _ => rfl⟩, fun hc => absurd hdisj hc⟩
  · have hdisj : row < 0 ∨ col < 0 ∨ (g.length : Int) ≤ row ∨
        ((g.getD row.toNat []).length : Int) ≤ col ∨
        (g.getD row.toNat []).getD col.toNat ' ' = ' ' := by tauto
    exact ⟨⟨fun _ => hdisj, fun _ => rfl⟩, fun hc => absurd hdisj hc⟩
  · have hdisj : row < 0 ∨ col < 0 ∨ (g.length : Int) ≤ row ∨
        ((g.getD row.toNat []).length : Int) ≤ col ∨
        (g.getD row.toNat []).getD col.toNat ' ' = ' ' := by tauto
    exact ⟨⟨fun _ => hdisj, fun _ => rfl⟩, fun hc => absurd hdisj hc⟩
  · have hndisj : ¬(row < 0 ∨ col < 0 ∨ (g.length : Int) ≤ row ∨
        ((g.getD row.toNat []).length : Int) ≤ col ∨
        (g.getD row.toNat []).getD col.toNat ' ' = ' ') := by tauto
    exact ⟨⟨fun habs => absurd habs (stringSingleton_ne_empty _),
            fun hdisj => absurd hdisj hndisj⟩, fun _ => rfl⟩

/-- Witness for C9: an in-range, non-space cell is returned as stored. -/
theorem getPoint_blank_iff_witness :
    getPoint singleLetterGrid 0 0 = String.singleton 'A' := by
  have h := (getPoint_blank_iff singleLetterGrid 0 0).2 (by decide)
  exact h

/-!
### Claim C3
-/

/-- C3: at the start tile, under the precondition that validation succeeded
— so exactly one neighbor is a real connection, i.e. movable — the first
transition moves toward that single real neighbor, candidates checked in
priority order up, down, left, right, and lastDirection is set to the
direction moved. -/
theorem startMove_single_real_neighbor (g : GridT) (row col : Int) (d : Direction)
    (hc : getPoint g row col = START_CHARACTER)
    (hv : (isStartPointValid g row col).isSuccessful = true) :
    (if canMoveUp g row col then 1 else 0) + (if canMoveDown g row col then 1 else 0) +
        (if canMoveLeft g row col then 1 else 0) +
        (if canMoveRight g row col then 1 else 0) = 1 ∧
      move g row col d =
        (if canMoveUp g row col then
          { row := row - 1, col := col, lastDirection := .up, errorMessage := none }
        else if canMoveDown g row col then
          { row := row + 1, col := col, lastDirection := .down, errorMessage := none }
        else if canMoveLeft g row col then
          { row := row, col := col - 1, lastDirection := .left, errorMessage := none }
        else
          { row := row, col := col + 1, lastDirection := .right, errorMessage := none }) := by
  have h1 := (isStartPointValid_success_iff g row col).mp hv
  rw [movableNeighborsCount_eq] at h1
  refine ⟨h1, ?_⟩
  have hm : move g row col d = getStartingMove g row col := by
    unfold move handleStartCharacter
    dsimp only
    rw [hc]
    simp
  rw [hm]
  unfold getStartingMove
  by_cases q1 : canMoveUp g row col
  · simp [q1]
  · by_cases q2 : canMoveDown g row col
    · simp [q1, q2]
    · by_cases q3 : canMoveLeft g row col
      · simp [q1, q2, q3]
      · have q4 : canMoveRight g row col = true := by
          by_cases q4 : canMoveRight g row col
          · exact q4
          · simp [q1, q2, q3, q4] at h1
        simp [q1, q2, q3, q4]

/-- Witness for C3: on c3Grid the up neighbor is a horizontal road that is
not on an intersection, so the single real neighbor is to the right and the
walk moves right. -/
theorem startMove_single_real_neighbor_witness :
    move c3Grid 1 1 Direction.start =
      { row := 1, col := 2, lastDirection := Direction.right, errorMessage := none } := by
  have h := (startMove_single_real_neighbor c3Grid 1 1 Direction.start
    (by decide) (by decide)).2
  rw [h]
  decide

/-!
### Claim C1
-/

/-- C1: at a turn that passed its local re-validation, when lastDirection is
up or down the walk moves left exactly when the left neighbor is a real
connection (canMoveLeft: non-blank and not a wrong-axis through-road, where a
road on a four-way intersection connects) and otherwise moves right when that
is real, erroring when neither is; symmetrically from left or right via up
then down. The same canMove checks govern start-point validation and letter
movement, so the discount rule is applied uniformly. -/
theorem turnMove_real_connection (g : GridT) (row col : Int) (d : Direction)
    (hc : getPoint g row col = CROSSROAD)
    (hv : (checkTurn g row col).isSuccessful = true) :
    ((d = Direction.up ∨ d = Direction.down) →
      move g row col d =
        (if canMoveLeft g row col then
          { row := row, col := col - 1, lastDirection := .left, errorMessage := none }
        else if canMoveRight g row col then
          { row := row, col := col + 1, lastDirection := .right, errorMessage := none }
        else
          { row := row, col := col, lastDirection := .error,
            errorMessage := some "No valid path found at turn" })) ∧
    ((d = Direction.left ∨ d = Direction.right) →
      move g row col d =
        (if canMoveUp g row col then
          { row := row - 1, col := col, lastDirection := .up, errorMessage := none }
        else if canMoveDown g row col then
          { row := row + 1, col := col, lastDirection := .down, errorMessage := none }
        else
          { row := row, col := col, lastDirection := .error,
            errorMessage := some "No valid path found at turn" })) := by
  constructor
  · rintro (rfl | rfl) <;>
      · by_cases q1 : canMoveLeft g row col
        · simp [move, hc, CROSSROAD, START_CHARACTER, HORIZONTAL_ROAD, VERTICAL_ROAD,
            END_CHARACTER, handleTurn, hv, getNextTurnMove, q1]
        · by_cases q2 : canMoveRight g row col
          · simp [move, hc, CROSSROAD, START_CHARACTER, HORIZONTAL_ROAD, VERTICAL_ROAD,
              END_CHARACTER, handleTurn, hv, getNextTurnMove, q1, q2]
          · simp [move, hc, CROSSROAD, START_CHARACTER, HORIZONTAL_ROAD, VERTICAL_ROAD,
              END_CHARACTER, handleTurn, hv, getNextTurnMove, q1, q2]
  · rintro (rfl | rfl) <;>
      · by_cases q1 : canMoveUp g row col
        · simp [move, hc, CROSSROAD, START_CHARACTER, HORIZONTAL_ROAD, VERTICAL_ROAD,
            END_CHARACTER, handleTurn, hv, getNextTurnMove, q1]
        · by_cases q2 : canMoveDown g row col
          · simp [move, hc, CROSSROAD, START_CHARACTER, HORIZONTAL_ROAD, VERTICAL_ROAD,
              END_CHARACTER, handleTurn, hv, getNextTurnMove, q1, q2]
          · simp [move, hc, CROSSROAD, START_CHARACTER, HORIZONTAL_ROAD, VERTICAL_ROAD,
              END_CHARACTER, handleTurn, hv, getNextTurnMove, q1, q2]

/-- Witness for C1: on c1Grid the left neighbor of the turn is a vertical
road not on an intersection, so arriving downward the walk moves right
toward the real connection; on lTurnGrid arriving rightward it moves down. -/
theorem turnMove_real_connection_witness :
    move c1Grid 1 1 Direction.down =
      { row := 1, col := 2, lastDirection := Direction.right, errorMessage := none } ∧
    move lTurnGrid 0 2 Direction.right =
      { row := 1, col := 2, lastDirection := Direction.down, errorMessage := none } := by
  constructor
  · have h := (turnMove_real_connection c1Grid 1 1 Direction.down
      (by decide) (by decide)).1 (Or.inr rfl)
    rw [h]
    decide
  · have h := (turnMove_real_connection lTurnGrid 0 2 Direction.right
      (by decide) (by decide)).2 (Or.inr rfl)
    rw [h]
    decide

/-- A one-character string of an uppercase letter differs from every special
grid character. -/
lemma letter_string_ne (ch : Char) (h1 : 'A' ≤ ch) (h2 : ch ≤ 'Z') :
    String.singleton ch ≠ START_CHARACTER ∧ String.singleton ch ≠ CROSSROAD ∧
      String.singleton ch ≠ HORIZONTAL_ROAD ∧ String.singleton ch ≠ VERTICAL_ROAD ∧
      String.singleton ch ≠ END_CHARACTER := by
  refine ⟨fun h => ?_, fun h => ?_, fun h => ?_, fun h => ?_, fun h => ?_⟩
  · have hc : ch = '@' := (stringSingleton_eq_iff ch '@').mp (by rw [h]; rfl)
    subst hc; exact absurd h1 (by decide)
  · have hc : ch = '+' := (stringSingleton_eq_iff ch '+').mp (by rw [h]; rfl)
    subst hc; exact absurd h1 (by decide)
  · have hc : ch = '-' := (stringSingleton_eq_iff ch '-').mp (by rw [h]; rfl)
    subst hc; exact absurd h1 (by decide)
  · have hc : ch = '|' := (stringSingleton_eq_iff ch '|').mp (by rw [h]; rfl)
    subst hc; exact absurd h2 (by decide)
  · have hc : ch = 'x' := (stringSingleton_eq_iff ch 'x').mp (by rw [h]; rfl)
    subst hc; exact absurd h2 (by decide)

/-!
### Claim C4
-/

/-- C4 (amended): at a letter tile with lastDirection one of up, down, left,
right, the transition first tries to continue in lastDirection, then tries
to turn (from up or down: left then right; from left or right: up then
down), and reports the letter error exactly when nothing is available — but
every candidate is gated by the canMove movability checks, which accept a
wrong-axis road when that neighbor lies on a four-way intersection, not by
the plain through-road discount the claim words. -/
theorem letterMove_follows_movable_spec (g : GridT) (row col : Int) (d : Direction) (ch : Char)
    (h1 : 'A' ≤ ch) (h2 : ch ≤ 'Z') (hpt : getPoint g row col = String.singleton ch)
    (hd : d = Direction.up ∨ d = Direction.down ∨ d = Direction.left ∨ d = Direction.right) :
    move g row col d = letterMoveSpec g row col d := by
  obtain ⟨n1, n2, n3, n4, n5⟩ := letter_string_ne ch h1 h2
  rw [← hpt] at n1 n2 n3 n4 n5
  have hm : move g row col d = handleLetter g row col d := by
    unfold move
    dsimp only
    rw [if_neg n1, if_neg n2, if_neg (fun h => h.elim n3 n4), if_neg n5]
  rw [hm]
  rcases hd with rfl | rfl | rfl | rfl
  · by_cases q1 : canMoveUp g row col
    · simp [handleLetter, getNextLetterMove, tryContinueDirection, letterMoveSpec, q1]
    · by_cases q2 : canMoveLeft g row col
      · simp [handleLetter, getNextLetterMove, tryContinueDirection, tryTurnFromDirection,
          letterMoveSpec, q1, q2]
      · by_cases q3 : canMoveRight g row col
        · simp [handleLetter, getNextLetterMove, tryContinueDirection, tryTurnFromDirection,
            letterMoveSpec, q1, q2, q3]
        · simp [handleLetter, getNextLetterMove, tryContinueDirection, tryTurnFromDirection,
            letterMoveSpec, q1, q2, q3]
  · by_cases q1 : canMoveDown g row col
    · simp [handleLetter, getNextLetterMove, tryContinueDirection, letterMoveSpec, q1]
    · by_cases q2 : canMoveLeft g row col
      · simp [handleLetter, getNextLetterMove, tryContinueDirection, tryTurnFromDirection,
          letterMoveSpec, q1, q2]
      · by_cases q3 : canMoveRight g row col
        · simp [handleLetter, getNextLetterMove, tryContinueDirection, tryTurnFromDirection,
            letterMoveSpec, q1, q2, q3]
        · simp [handleLetter, getNextLetterMove, tryContinueDirection, tryTurnFromDirection,
            letterMoveSpec, q1, q2, q3]
  · by_cases q1 : canMoveLeft g row col
    · simp [handleLetter, getNextLetterMove, tryContinueDirection, letterMoveSpec, q1]
    · by_cases q2 : canMoveUp g row col
      · simp [handleLetter, getNextLetterMove, tryContinueDirection, tryTurnFromDirection,
          letterMoveSpec, q1, q2]
      · by_cases q3 : canMoveDown g row col
        · simp [handleLetter, getNextLetterMove, tryContinueDirection, tryTurnFromDirection,
            letterMoveSpec, q1, q2, q3]
        · simp [handleLetter, getNextLetterMove, tryContinueDirection, tryTurnFromDirection,
            letterMoveSpec, q1, q2, q3]
  · by_cases q1 : canMoveRight g row col
    · simp [handleLetter, getNextLetterMove, tryContinueDirection, letterMoveSpec, q1]
    · by_cases q2 : canMoveUp g row col
      · simp [handleLetter, getNextLetterMove, tryContinueDirection, tryTurnFromDirection,
          letterMoveSpec, q1, q2]
      · by_cases q3 : canMoveDown g row col
        · simp [handleLetter, getNextLetterMove, tryContinueDirection, tryTurnFromDirection,
            letterMoveSpec, q1, q2, q3]
        · simp [handleLetter, getNextLetterMove, tryContinueDirection, tryTurnFromDirection,
            letterMoveSpec, q1, q2, q3]

/-- Witness for the amended C4: an isolated letter with no neighbors errors
with the letter message, as the amended specification-side function
prescribes. -/
theorem letterMove_follows_movable_spec_witness :
    move singleLetterGrid 0 0 Direction.up = letterMoveSpec singleLetterGrid 0 0 Direction.up ∧
      move singleLetterGrid 0 0 Direction.up =
        { row := 0, col := 0, lastDirection := Direction.error,
          errorMessage := some "No valid path found at letter" } := by
  refine ⟨letterMove_follows_movable_spec singleLetterGrid 0 0 Direction.up 'A'
    (by decide) (by decide) (by decide) (Or.inl rfl), by decide⟩

/-- C4 as stated is false of the code: on c4Grid the letter has no neighbor
that is real under the plain through-road discount the claim words (its only
neighbor is a horizontal road directly above), so the claim demands the
letter error; but that road lies on a four-way intersection, so the program
continues upward onto it. -/
theorem letterMove_plain_discount_counterexample :
    getPoint c4Grid 2 2 = String.singleton 'A' ∧
      (getNeighbors c4Grid 2 2).up = HORIZONTAL_ROAD ∧
      realNeighborCount c4Grid 2 2 = 0 ∧
      isPointOnIntersection c4Grid 1 2 = true ∧
      move c4Grid 2 2 Direction.up =
        { row := 1, col := 2, lastDirection := Direction.up, errorMessage := none } := by
  decide

/-!
### Claim C6
-/

lemma checkTurn_count_fail (g : GridT) (row col : Int)
    (h : movableNeighborsCount g row col ≠ 2) :
    checkTurn g row col =
      { isSuccessful := false
        errorDetails := some
          { row := some row
            col := some col
            errorMessage := "Turn must have exactly 2 roads coming into it" } } := by
  unfold checkTurn
  dsimp only
  simp [h]

/-- C6 (amended): a turn all four of whose neighbors are real connections
(movable) makes the walk transition report the exactly-2-roads error, so
findPath fails when the walk reaches such a tile; a four-way intersection
that the walked path never visits is not detected, because turns are only
validated during the walk. -/
theorem fourWay_turn_move_errors (g : GridT) (row col : Int) (d : Direction)
    (hc : getPoint g row col = CROSSROAD)
    (hu : canMoveUp g row col = true) (hd : canMoveDown g row col = true)
    (hl : canMoveLeft g row col = true) (hr : canMoveRight g row col = true) :
    move g row col d =
      { row := row, col := col, lastDirection := Direction.error,
        errorMessage := some "Turn must have exactly 2 roads coming into it" } := by
  have hcount : movableNeighborsCount g row col = 4 := by
    rw [movableNeighborsCount_eq, hu, hd, hl, hr]
    simp
  have hck := checkTurn_count_fail g row col (by rw [hcount]; decide)
  simp [move, hc, CROSSROAD, START_CHARACTER, HORIZONTAL_ROAD, VERTICAL_ROAD,
    END_CHARACTER, handleTurn, hck]

/-- Witness for the amended C6 at a concrete four-way intersection. -/
theorem fourWay_turn_move_errors_witness :
    move fourWayCross 1 1 Direction.right =
      { row := 1, col := 1, lastDirection := Direction.error,
        errorMessage := some "Turn must have exactly 2 roads coming into it" } :=
  fourWay_turn_move_errors fourWayCross 1 1 Direction.right (by decide) (by decide)
    (by decide) (by decide) (by decide)

/-- C6 as stated is false: fourWayGrid contains a turn with four movable
neighbors, yet findPath succeeds because the walked path never visits it. -/
theorem fourWay_offpath_success_counterexample :
    getPoint fourWayGrid 1 5 = CROSSROAD ∧
      canMoveUp fourWayGrid 1 5 = true ∧
      canMoveDown fourWayGrid 1 5 = true ∧
      canMoveLeft fourWayGrid 1 5 = true ∧
      canMoveRight fourWayGrid 1 5 = true ∧
      findPath fourWayGrid 20 =
        some { isSuccessful := true
               customData := some
                { visitedCoordinates := [⟨0, 0, "@"⟩, ⟨0, 1, "-"⟩, ⟨0, 2, "x"⟩]
                  collectedLetters := "" }
               errorDetails := none } := by
  decide

/-!
### Claim C7
-/

/-- C7 (amended): whenever the validation sweep reaches a start character
while a start point is already recorded, it rejects immediately — the result
is independent of that cell's neighbors and the recorded state is unchanged —
and the sweep aborts with the multiple-start failure, which findPath then
returns. A grid with two or more start characters fails with this message
only when no earlier cell aborts the sweep first. -/
theorem second_start_rejected_immediately (g : GridT) (st : SetupState)
    (row col : Int) (p : Int × Int)
    (hst : st.startPoint = some p) (hch : getPoint g row col = START_CHARACTER) :
    processCell g st row col =
      ({ isSuccessful := false
         errorDetails := some
          { row := none, col := none
            errorMessage := "There are more than one start points." } }, st) ∧
    ∀ rest : List (Int × Int),
      sweepFrom g st ((row, col) :: rest) =
        ({ isSuccessful := false
           errorDetails := some
            { row := none, col := none
              errorMessage := "There are more than one start points." } }, st) := by
  have hvg : validGridCharTest "@" = true := by decide
  have hp : processCell g st row col =
      ({ isSuccessful := false
         errorDetails := some
          { row := none, col := none
            errorMessage := "There are more than one start points." } }, st) := by
    unfold processCell
    dsimp only
    rw [hch, hst]
    simp [hvg, START_CHARACTER]
  refine ⟨hp, fun rest => ?_⟩
  unfold sweepFrom
  dsimp only
  rw [hp]
  simp

/-- Witness for the amended C7: in c7Grid, with the first start already
recorded, the sweep rejects the second start character at (0, 1). -/
theorem second_start_rejected_immediately_witness :
    processCell c7Grid { startPoint := some (0, 0), endPoint := none } 0 1 =
      ({ isSuccessful := false
         errorDetails := some
          { row := none, col := none
            errorMessage := "There are more than one start points." } },
       { startPoint := some (0, 0), endPoint := none }) :=
  (second_start_rejected_immediately c7Grid
    { startPoint := some (0, 0), endPoint := none } 0 1 (0, 0) rfl (by decide)).1

/-- C7 as stated is false: c7Grid contains three start characters, yet the
sweep aborts at the first one with a start-point error, so findPath's failure
message does not mention multiple start points. -/
theorem two_starts_earlier_error_counterexample :
    getPoint c7Grid 0 0 = START_CHARACTER ∧
      getPoint c7Grid 0 1 = START_CHARACTER ∧
      findPath c7Grid 10 =
        some { isSuccessful := false
               customData := none
               errorDetails := some
                { row := some 0
                  col := some 0
                  errorMessage :=
                    "Start point (0, 0) has 2 neighbors, but it must have exactly 1." } } ∧
      "Start point (0, 0) has 2 neighbors, but it must have exactly 1." ≠
        "There are more than one start points." := by
  decide

/-!
### Claim C2
-/

/-- On loopGrid the walk cycles through thirteen states and never reaches a
terminal one: from each reachable state, one unfolding of the loop body steps
to another state of the set, so no amount of fuel reaches an end. -/
lemma loopGrid_walk_never_finishes :
    ∀ (fuel : Nat) (t : List Visit),
      walkAux loopGrid fuel 0 0 Direction.start t = none ∧
      walkAux loopGrid fuel 0 1 Direction.right t = none ∧
      walkAux loopGrid fuel 0 2 Direction.right t = none ∧
      walkAux loopGrid fuel 0 3 Direction.right t = none ∧
      walkAux loopGrid fuel 0 4 Direction.right t = none ∧
      walkAux loopGrid fuel 1 4 Direction.down t = none ∧
      walkAux loopGrid fuel 2 4 Direction.down t = none ∧
      walkAux loopGrid fuel 2 3 Direction.left t = none ∧
      walkAux loopGrid fuel 2 2 Direction.left t = none ∧
      walkAux loopGrid fuel 1 2 Direction.up t = none ∧
      walkAux loopGrid fuel 0 2 Direction.up t = none ∧
      walkAux loopGrid fuel 0 1 Direction.left t = none ∧
      walkAux loopGrid fuel 0 0 Direction.left t = none := by
  intro fuel
  induction fuel with
  | zero =>
    intro t
    exact ⟨rfl, rfl, rfl, rfl, rfl, rfl, rfl, rfl, rfl, rfl, rfl, rfl, rfl⟩
  | succ n ih =>
    intro t
    refine ⟨?_, ?_, ?_, ?_, ?_, ?_, ?_, ?_, ?_, ?_, ?_, ?_, ?_⟩
    · exact (ih (t ++ [⟨0, 0, "@"⟩])).2.1
    · exact (ih (t ++ [⟨0, 1, "-"⟩])).2.2.1
    · exact (ih (t ++ [⟨0, 2, "A"⟩])).2.2.2.1
    · exact (ih (t ++ [⟨0, 3, "-"⟩])).2.2.2.2.1
    · exact (ih (t ++ [⟨0, 4, "+"⟩])).2.2.2.2.2.1
    · exact (ih (t ++ [⟨1, 4, "|"⟩])).2.2.2.2.2.2.1
    · exact (ih (t ++ [⟨2, 4, "+"⟩])).2.2.2.2.2.2.2.1
    · exact (ih (t ++ [⟨2, 3, "-"⟩])).2.2.2.2.2.2.2.2.1
    · exact (ih (t ++ [⟨2, 2, "+"⟩])).2.2.2.2.2.2.2.2.2.1
    · exact (ih (t ++ [⟨1, 2, "|"⟩])).2.2.2.2.2.2.2.2.2.2.1
    · exact (ih (t ++ [⟨0, 2, "A"⟩])).2.2.2.2.2.2.2.2.2.2.2.1
    · exact (ih (t ++ [⟨0, 1, "-"⟩])).2.2.2.2.2.2.2.2.2.2.2.2
    · exact (ih (t ++ [⟨0, 0, "@"⟩])).2.1

/-- C2 is violated by the code: loopGrid passes validation, its walk revisits
the state (row 0, col 1, direction right) after twelve further steps, and
findPath never returns however much fuel the loop is given — the walk neither
strictly advances nor errors around the cycle, and nothing detects the
revisit. -/
theorem findPath_loops_forever_on_cycle : ∀ fuel : Nat, findPath loopGrid fuel = none := by
  intro fuel
  exact (loopGrid_walk_never_finishes fuel []).1

/-!
### Movement invariants for the walk
-/

lemma getStartingMove_facts (g : GridT) (row col : Int) :
    ((getStartingMove g row col).lastDirection = Direction.error →
      (getStartingMove g row col).row = row ∧ (getStartingMove g row col).col = col) ∧
      (getStartingMove g row col).lastDirection ≠ Direction.finish := by
  unfold getStartingMove
  split_ifs <;> exact ⟨fun h => by simp_all, by simp⟩

lemma handleTurn_facts (g : GridT) (row col : Int) (d : Direction) :
    ((handleTurn g row col d).lastDirection = Direction.error →
      (handleTurn g row col d).row = row ∧ (handleTurn g row col d).col = col) ∧
      (handleTurn g row col d).lastDirection ≠ Direction.finish := by
  unfold handleTurn getNextTurnMove
  cases d <;> dsimp only <;> first | (split_ifs <;> simp_all) | simp_all

lemma getNextRoadMove_facts (g : GridT) (row col : Int) (d : Direction) :
    ((getNextRoadMove g row col d).lastDirection = Direction.error →
      (getNextRoadMove g row col d).row = row ∧ (getNextRoadMove g row col d).col = col) ∧
      (getNextRoadMove g row col d).lastDirection ≠ Direction.finish := by
  unfold getNextRoadMove
  cases d <;> dsimp only <;> first | (split_ifs <;> simp_all) | simp_all

lemma handleLetter_facts (g : GridT) (row col : Int) (d : Direction) :
    ((handleLetter g row col d).lastDirection = Direction.error →
      (handleLetter g row col d).row = row ∧ (handleLetter g row col d).col = col) ∧
      (handleLetter g row col d).lastDirection ≠ Direction.finish := by
  unfold handleLetter getNextLetterMove tryContinueDirection tryTurnFromDirection
  cases d <;> dsimp only <;> first | (split_ifs <;> simp_all) | simp_all

/-- Every error transition keeps the current position, so the error details
point at the tile just appended to the trace. -/
lemma move_error_pos (g : GridT) (row col : Int) (d : Direction)
    (h : (move g row col d).lastDirection = Direction.error) :
    (move g row col d).row = row ∧ (move g row col d).col = col := by
  unfold move handleStartCharacter handleRoad at h ⊢
  dsimp only at h ⊢
  split_ifs at h ⊢ with h1 h2 h3 h4 <;>
    first
    | exact (getStartingMove_facts g row col).1 h
    | exact (handleTurn_facts g row col d).1 h
    | exact (getNextRoadMove_facts g row col d).1 h
    | exact (handleLetter_facts g row col d).1 h
    | simp_all

/-- The walk emits FINISH exactly at an end-marker tile. -/
lemma move_finish_iff (g : GridT) (row col : Int) (d : Direction) :
    (move g row col d).lastDirection = Direction.finish ↔
      getPoint g row col = END_CHARACTER := by
  unfold move handleStartCharacter handleRoad
  dsimp only
  split_ifs with h1 h2 h3 h4 <;>
    first
    | exact iff_of_false (getStartingMove_facts g row col).2
        (fun hh => absurd (h1.symm.trans hh) (by decide))
    | exact iff_of_false (handleTurn_facts g row col d).2
        (fun hh => absurd (h2.symm.trans hh) (by decide))
    | (refine iff_of_false (getNextRoadMove_facts g row col d).2 (fun hh => ?_)
       rcases h3 with h3 | h3
       · exact absurd (h3.symm.trans hh) (by decide)
       · exact absurd (h3.symm.trans hh) (by decide))
    | exact iff_of_true rfl h4
    | exact iff_of_false (handleLetter_facts g row col d).2 h4

/-- Every failing walk result carries the accumulated trace with its letters
and error details locating the last visited tile. -/
lemma walkAux_fail_invariant (g : GridT) :
    ∀ (fuel : Nat) (row col : Int) (d : Direction) (t : List Visit)
      (res : TypedProcessResult PathResult),
      walkAux g fuel row col d t = some res → res.isSuccessful = false →
      res.customData.isSome = true ∧ walkFailureInvariant g res := by
  intro fuel
  induction fuel with
  | zero =>
    intro row col d t res h hf
    unfold walkAux at h
    by_cases hd : d = Direction.finish
    · rw [if_pos hd] at h
      simp only [Option.some.injEq] at h
      subst h
      simp at hf
    · rw [if_neg hd] at h
      dsimp only at h
      exact absurd h (by simp)
  | succ n ih =>
    intro row col d t res h hf
    unfold walkAux at h
    by_cases hd : d = Direction.finish
    · rw [if_pos hd] at h
      simp only [Option.some.injEq] at h
      subst h
      simp at hf
    · rw [if_neg hd] at h
      dsimp only at h
      by_cases herr : (move g row col d).lastDirection = Direction.error
      · rw [if_pos herr] at h
        simp only [Option.some.injEq] at h
        subst h
        obtain ⟨hr, hc2⟩ := move_error_pos g row col d herr
        refine ⟨rfl, ?_⟩
        unfold walkFailureInvariant
        dsimp only
        refine ⟨rfl, ?_⟩
        rw [List.getLast?_concat]
        exact ⟨by rw [hr], by rw [hc2], rfl⟩
      · rw [if_neg herr] at h
        exact ih _ _ _ _ _ h hf

/-- Every successful walk that starts in a non-terminal state ends its trace
at an end-marker tile. -/
lemma walkAux_success_end (g : GridT) :
    ∀ (fuel : Nat) (row col : Int) (d : Direction) (t : List Visit)
      (res : TypedProcessResult PathResult),
      d ≠ Direction.finish →
      walkAux g fuel row col d t = some res → res.isSuccessful = true →
      ((res.customData.bind fun pr => pr.visitedCoordinates.getLast?).map
          fun v => v.character) = some END_CHARACTER ∧
        ((res.customData.bind fun pr => pr.visitedCoordinates.getLast?).map
          fun v => getPoint g v.row v.col) = some END_CHARACTER := by
  intro fuel
  induction fuel with
  | zero =>
    intro row col d t res hd h hs
    unfold walkAux at h
    rw [if_neg hd] at h
    dsimp only at h
    exact absurd h (by simp)
  | succ n ih =>
    intro row col d t res hd h hs
    unfold walkAux at h
    rw [if_neg hd] at h
    dsimp only at h
    by_cases herr : (move g row col d).lastDirection = Direction.error
    · rw [if_pos herr] at h
      simp only [Option.some.injEq] at h
      subst h
      simp at hs
    · rw [if_neg herr] at h
      by_cases hfin : (move g row col d).lastDirection = Direction.finish
      · unfold walkAux at h
        rw [if_pos hfin] at h
        simp only [Option.some.injEq] at h
        subst h
        have hx : getPoint g row col = END_CHARACTER := (move_finish_iff g row col d).mp hfin
        constructor
        · dsimp only [Option.bind]
          rw [List.getLast?_concat]
          simp [hx]
        · dsimp only [Option.bind]
          rw [List.getLast?_concat]
          simp [hx]
      · exact ih _ _ _ _ _ hfin h hs

lemma isStartPointValid_fail_some (g : GridT) (row col : Int) :
    (isStartPointValid g row col).isSuccessful = false →
      ((isStartPointValid g row col).errorDetails).isSome = true := by
  unfold isStartPointValid
  dsimp only
  split_ifs <;> simp

lemma processCell_fail_some (g : GridT) (st : SetupState) (row col : Int) :
    (processCell g st row col).1.isSuccessful = false →
      ((processCell g st row col).1.errorDetails).isSome = true := by
  unfold processCell
  dsimp only
  split_ifs <;>
    first
    | simp
    | (cases st.startPoint with
       | some p => simp
       | none =>
         dsimp only
         exact isStartPointValid_fail_some g row col)

lemma sweepFrom_fail_some (g : GridT) :
    ∀ (cells : List (Int × Int)) (st : SetupState),
      (sweepFrom g st cells).1.isSuccessful = false →
        ((sweepFrom g st cells).1.errorDetails).isSome = true := by
  intro cells
  induction cells with
  | nil =>
    intro st h
    simp [sweepFrom] at h
  | cons cell rest ih =>
    intro st h
    obtain ⟨row, col⟩ := cell
    unfold sweepFrom at h ⊢
    dsimp only at h ⊢
    by_cases hp : (processCell g st row col).1.isSuccessful
    · rw [if_pos hp] at h ⊢
      exact ih _ h
    · rw [if_neg hp] at h ⊢
      exact processCell_fail_some g st row col (by simpa using hp)

lemma setup_fail_some (g : GridT) (h : (setup g).1.isSuccessful = false) :
    ((setup g).1.errorDetails).isSome = true := by
  unfold setup at h ⊢
  dsimp only at h ⊢
  by_cases hs : (setupSweep g).1.isSuccessful
  · rw [if_neg (by simp [hs])] at h ⊢
    cases hsp : (setupSweep g).2.startPoint with
    | some p =>
      cases hep : (setupSweep g).2.endPoint with
      | some q =>
        rw [hsp, hep] at h
        dsimp only at h
        rw [h] at hs
        simp at hs
      | none => simp
    | none =>
      cases hep : (setupSweep g).2.endPoint with
      | some q => simp
      | none => simp
  · rw [if_pos (by simp [hs])] at h ⊢
    exact sweepFrom_fail_some g _ _ (by simpa using hs)

/-!
### Claim C8
-/

/-- C8: findPath returns every error as a failure value whose error details
(and so a message, plus a row and column where applicable) are present; a
walk-phase failure, which is exactly a failure produced after setup
succeeded, additionally carries the partial visit trace with the letters
collected from it, with the error details locating the last visited tile. -/
theorem failure_carries_details (g : GridT) (fuel : Nat)
    (res : TypedProcessResult PathResult)
    (h : findPath g fuel = some res) (hf : res.isSuccessful = false) :
    res.errorDetails.isSome = true ∧
      ((setup g).1.isSuccessful = true →
        res.customData.isSome = true ∧ walkFailureInvariant g res) := by
  unfold findPath at h
  dsimp only at h
  by_cases hs : (setup g).1.isSuccessful
  · rw [if_neg (by simp [hs])] at h
    have hw := walkAux_fail_invariant g fuel _ _ _ _ res h hf
    refine ⟨?_, fun _ => hw⟩
    have hinv := hw.2
    unfold walkFailureInvariant at hinv
    cases hcd : res.customData with
    | none =>
      rw [hcd] at hinv
      exact absurd hinv (by simp)
    | some pr =>
      cases hed : res.errorDetails with
      | none =>
        rw [hcd, hed] at hinv
        exact absurd hinv (by simp)
      | some ed => simp [hed]
  · rw [if_pos (by simp [hs])] at h
    simp only [Option.some.injEq] at h
    subst h
    refine ⟨?_, fun hcontra => absurd hcontra hs⟩
    exact setup_fail_some g (by simpa using hs)

/-- Witness for C8: the walk of c8Grid fails after two tiles and the failure
value carries details and trace as the theorem states. -/
theorem failure_carries_details_witness :
    c8Res.errorDetails.isSome = true ∧ walkFailureInvariant c8Grid c8Res := by
  have h := failure_carries_details c8Grid 10 c8Res (by decide) (by decide)
  exact ⟨h.1, (h.2 (by decide)).2⟩

/-!
### Claim C10
-/

/-- C10: the walk emits FINISH exactly at a tile holding the end character —
any end tile, the first one the path reaches, which then ends the trace — and
the end position recorded by the validation sweep is not consulted: on
multiXGrid the sweep records the end point (0, 4), while the walk succeeds
finishing at (0, 2). -/
theorem walk_finishes_at_first_end :
    (∀ (g : GridT) (row col : Int) (d : Direction),
      getPoint g row col = END_CHARACTER →
        move g row col d =
          { row := row, col := col, lastDirection := Direction.finish, errorMessage := none }) ∧
    (∀ (g : GridT) (row col : Int) (d : Direction),
      (move g row col d).lastDirection = Direction.finish ↔
        getPoint g row col = END_CHARACTER) ∧
    (∀ (g : GridT) (fuel : Nat) (row col : Int) (d : Direction) (t : List Visit)
      (res : TypedProcessResult PathResult),
      d ≠ Direction.finish → walkAux g fuel row col d t = some res →
      res.isSuccessful = true →
      ((res.customData.bind fun pr => pr.visitedCoordinates.getLast?).map
        fun v => v.character) = some END_CHARACTER) ∧
    ((setup multiXGrid).2.endPoint = some (0, 4) ∧
      findPath multiXGrid 20 =
        some { isSuccessful := true
               customData := some
                { visitedCoordinates := [⟨0, 0, "@"⟩, ⟨0, 1, "-"⟩, ⟨0, 2, "x"⟩]
                  collectedLetters := "" }
               errorDetails := none } ∧
      ((0 : Int), (2 : Int)) ≠ ((0 : Int), (4 : Int))) := by
  refine ⟨?_, move_finish_iff, ?_, by decide⟩
  · intro g row col d hc
    simp [move, hc, START_CHARACTER, CROSSROAD, HORIZONTAL_ROAD, VERTICAL_ROAD, END_CHARACTER]
  · intro g fuel row col d t res hd h hs
    exact (walkAux_success_end g fuel row col d t res hd h hs).1

/-- Witness for C10: the end tile of multiXGrid finishes in place, and the
successful walk of multiXGrid ends its trace at an end-marker tile. -/
theorem walk_finishes_at_first_end_witness :
    move multiXGrid 0 2 Direction.right =
      { row := 0, col := 2, lastDirection := Direction.finish, errorMessage := none } ∧
    (((some { visitedCoordinates := [⟨0, 0, "@"⟩, ⟨0, 1, "-"⟩, ⟨0, 2, "x"⟩]
              collectedLetters := "" } : Option PathResult).bind
        fun pr => pr.visitedCoordinates.getLast?).map fun v => v.character) =
      some END_CHARACTER := by
  constructor
  · exact walk_finishes_at_first_end.1 multiXGrid 0 2 Direction.right (by decide)
  · exact walk_finishes_at_first_end.2.2.1 multiXGrid 20 0 0 Direction.start []
      { isSuccessful := true
        customData := some
          { visitedCoordinates := [⟨0, 0, "@"⟩, ⟨0, 1, "-"⟩, ⟨0, 2, "x"⟩]
            collectedLetters := "" }
        errorDetails := none }
      (by decide) (by decide) rfl
